import Mathlib

/-!
Shallow embedding of the Cafe Curator client logic (`app.js`, backend-proxied
variant): the location/result caching and request-gating controller, the
result-cache key derivation, rating sort, the busy/watchdog state machine and
the per-type saved-place registry.

Modelling conventions:
* time is epoch milliseconds modelled as `Nat`;
* geographic coordinates are modelled exactly in integer micro-degrees
  (`Int`, 1 unit = 10⁻⁶ degree), which represents every value the claims
  mention exactly and on which `toFixed(3)` is a pure integer computation;
* ratings are modelled exactly in integer tenths of a star (`Int`, 4.5 ↦ 45),
  an order-isomorphic encoding of the decimal rating values, which is all the
  sort comparator observes;
* JS `null`/absent fields are modelled with `Option`.
-/

namespace CafeCurator

/-- `CACHE_MINUTES = 10` — location cache TTL in minutes (app.js line 3). -/
def CACHE_MINUTES : Nat := 10

/-- `RESULT_TTL = 5 * 60 * 1000` — results cache TTL in ms (app.js line 4). -/
def RESULT_TTL : Nat := 5 * 60 * 1000

/-- `SEARCH_RADIUS_M = 1500` (app.js line 5). -/
def SEARCH_RADIUS_M : Nat := 1500

/-- `REQUEST_GAP_MS = 2500` — minimum gap between upstream calls (app.js line 6). -/
def REQUEST_GAP_MS : Nat := 2500

/-- A place record as produced by the `/api/nearby` proxy and consumed by the
client: `{ place_id, name, rating, vicinity, photo }`.  `rating` is `null`able
(`Option`); the numeric value is in tenths of a star. -/
structure Place where
  place_id : String
  name : String
  rating : Option Int
  vicinity : String
  photo : Option String
deriving DecidableEq

/-- The effective rating used by the sort comparator: `(p.rating || 0)` —
a missing rating contributes `0`. -/
def effRating (p : Place) : Int := p.rating.getD 0

/-- The ordering realised by
`results.slice().sort((a,b) => (b.rating||0) - (a.rating||0))`:
`a` may precede `b` exactly when the comparator value
`(b.rating||0) - (a.rating||0)` is `≤ 0`, i.e. descending by effective
rating. -/
def ratingGE (a b : Place) : Prop := effRating b ≤ effRating a

instance : DecidableRel ratingGE :=
  fun a b => inferInstanceAs (Decidable (effRating b ≤ effRating a))

instance : IsTotal Place ratingGE := ⟨fun a b => le_total (effRating b) (effRating a)⟩

instance : IsTrans Place ratingGE := ⟨fun _ _ _ h1 h2 => le_trans h2 h1⟩

/-- Model of the stable JS `Array.prototype.sort` with the descending-by-rating
comparator (app.js line 172): insertion sort is stable and realises the same
ordering. -/
def sortByRating (l : List Place) : List Place := List.insertionSort ratingGE l

/-- Zero-pad a 3-digit fractional part, as `toFixed(3)` renders it. -/
def pad3 (n : Nat) : String :=
  if n < 10 then "00" ++ toString n
  else if n < 100 then "0" ++ toString n
  else toString n

/-- The magnitude of `x.toFixed(3)` in thousandths of a degree, for `x` in
micro-degrees: the integer `n` minimising `|n/1000 - |x|/10^6|` with ties to
the larger `n` (ECMA `Number.prototype.toFixed` first takes the sign out),
i.e. round-half-up on the magnitude. -/
def fixed3Mag (x : Int) : Nat := (x.natAbs + 500) / 1000

/-- Model of JS `x.toFixed(3)` for `x` in micro-degrees: sign of the original
value, then the magnitude rounded to the nearest thousandth (ties away from
zero), rendered with exactly three decimals. -/
def toFixed3 (x : Int) : String :=
  let sign := if x < 0 then "-" else ""
  let n := fixed3Mag x
  sign ++ toString (n / 1000) ++ "." ++ pad3 (n % 1000)

/-- `cacheKey` (app.js lines 122–126):
`(lat, lng, type) => nearby:TYPE:RLAT,RLNG` with `rLat = lat.toFixed(3)`,
`rLng = lng.toFixed(3)`. -/
def cacheKey (lat lng : Int) (type : String) : String :=
  "nearby:" ++ type ++ ":" ++ toFixed3 lat ++ "," ++ toFixed3 lng

/-- Truncation of the coordinate to 3 decimal places (magnitude in
thousandths), as the claim's words for `round3` prescribe. -/
def truncMag3 (x : Int) : Nat := x.natAbs / 1000

/-- Rendering of the claim's truncating `round3` with three decimals and the
sign of the original value. -/
def truncFixed3 (x : Int) : String :=
  let sign := if x < 0 then "-" else ""
  let n := truncMag3 x
  sign ++ toString (n / 1000) ++ "." ++ pad3 (n % 1000)

/-- Key derivation exactly as the claim words it (for comparison with the
source's `cacheKey`): `key(type, lat, lng) = type + ":" + round3(lat) + "," +
round3(lng)` where `round3` truncates to 3 decimal places. -/
def claimKey (type : String) (lat lng : Int) : String :=
  type ++ ":" ++ truncFixed3 lat ++ "," ++ truncFixed3 lng

example : toFixed3 (40000400 : Int) = "40.000" := by decide
example : toFixed3 (-73999600 : Int) = "-74.000" := by decide
example : cacheKey 40000400 (-73999600) "cafe" = "nearby:cafe:40.000,-74.000" := by decide
example : claimKey "cafe" 40000400 (-73999600) = "cafe:40.000,-73.999" := by decide
example : toFixed3 (40000100 : Int) = toFixed3 (40000400 : Int) := by decide
example : toFixed3 (-73999900 : Int) = toFixed3 (-73999600 : Int) := by decide

/-- The raw value stored under a result-cache key: `{ ts, data }` as written by
`setCachedResults`.  `ts := none` models a stored object whose `ts` field is
absent (e.g. the `'{}'` fallback has no `ts`); `some 0` models a literal `0`
timestamp — both are falsy in the JS guard `c.ts && …`. -/
structure RawEntry where
  ts : Option Nat
  data : List Place
deriving DecidableEq

/-- `getCachedResults` (app.js lines 127–131) applied to the parsed stored
value (`none` models a key that is absent from storage, parsed from the
`'{}'` default, whose `ts` is also absent): returns `c.data` when `c.ts` is
truthy and younger than `RESULT_TTL`, else `null`. -/
def getCachedResults (stored : Option RawEntry) (now : Nat) : Option (List Place) :=
  match stored with
  | some c =>
    match c.ts with
    | some t => if t ≠ 0 ∧ now - t < RESULT_TTL then some c.data else none
    | none => none
  | none => none

/-- `setCachedResults` (app.js lines 132–134): the value written is
`{ ts: Date.now(), data }` where `now` is the clock at write time. -/
def setCachedResults (now : Nat) (data : List Place) : RawEntry :=
  { ts := some now, data := data }

/-- The raw value stored under `cachedLocation`: `{ lat, lng, timestamp }`.
`timestamp := none` models an absent field, `some 0` a literal zero — both
falsy in the JS guard `cache.timestamp && …`. -/
structure LocRaw where
  lat : Int
  lng : Int
  timestamp : Option Nat
deriving DecidableEq

/-- The process-wide request gate: `let inFlight = false; let lastRequestAt = 0`
(app.js lines 7–8). -/
structure GateState where
  inFlight : Bool
  lastRequestAt : Nat
deriving DecidableEq

/-- The guard `inFlight || Date.now() - lastRequestAt < REQUEST_GAP_MS`
shared by `getLocation` (line 93) and `useLocation` (line 145).  JS number
subtraction can go negative and any negative value is `< REQUEST_GAP_MS`;
`Nat` truncated subtraction yields `0 < REQUEST_GAP_MS` there, the same
verdict. -/
def gateBlocks (g : GateState) (now : Nat) : Prop :=
  g.inFlight = true ∨ now - g.lastRequestAt < REQUEST_GAP_MS

instance (g : GateState) (now : Nat) : Decidable (gateBlocks g now) :=
  inferInstanceAs (Decidable (_ ∨ _))

/-- Outcome of the one-shot Geolocation Provider read:
`success` carries the coordinates delivered to the success callback,
`failure` is the error callback (denial/timeout), `unsupported` models
`!navigator.geolocation`. -/
inductive GeoOutcome where
  | success (lat lng : Int)
  | failure
  | unsupported
deriving DecidableEq

/-- Observable effect of one `getLocation()` invocation. -/
structure GetLocEffect where
  /-- the gate guard at line 93 dropped the request (silent no-op) -/
  dropped : Bool
  /-- value written to `cachedLocation`, if any -/
  locWrite : Option LocRaw
  /-- coordinates handed to `useLocation`, if the flow proceeds -/
  proceedWith : Option (Int × Int)
  /-- `navigator.geolocation.getCurrentPosition` was invoked -/
  invokedGeo : Bool
  /-- `renderEmpty` message, if any -/
  message : Option String
deriving DecidableEq

/-- The geolocation branch of `getLocation` (app.js lines 103–118).  `now` is
the clock value captured at line 96, *before* `getCurrentPosition` is called;
the success callback stores `{ lat, lng, timestamp: now }` — the source never
reads the clock inside the callback, so the delivery time `tCallback` (the
moment the position is read) cannot appear in the stored entry. -/
def geoBranch (now tCallback : Nat) (geo : GeoOutcome) : GetLocEffect :=
  match geo with
  | .unsupported =>
    { dropped := false, locWrite := none, proceedWith := none, invokedGeo := false
      message := some "Geolocation not supported by this browser." }
  | .success lat lng =>
    { dropped := false, locWrite := some { lat := lat, lng := lng, timestamp := some now }
      proceedWith := some (lat, lng), invokedGeo := true, message := none }
  | .failure =>
    { dropped := false, locWrite := none, proceedWith := none, invokedGeo := true
      message := some "Location access denied or unavailable." }

/-- `getLocation` (app.js lines 89–119): gate guard first, then the location
cache (`timestamp` truthy and younger than `CACHE_MINUTES`), else the
Geolocation Provider.  `stored` is the parsed `cachedLocation` value (`none`
models the `'{}'` default, whose `timestamp` is absent). -/
def getLocation (g : GateState) (stored : Option LocRaw) (now tCallback : Nat)
    (geo : GeoOutcome) : GetLocEffect :=
  if gateBlocks g now then
    { dropped := true, locWrite := none, proceedWith := none, invokedGeo := false
      message := none }
  else
    match stored with
    | some cache =>
      match cache.timestamp with
      | some t =>
        if t ≠ 0 ∧ now - t < CACHE_MINUTES * 60 * 1000 then
          { dropped := false, locWrite := none, proceedWith := some (cache.lat, cache.lng)
            invokedGeo := false, message := none }
        else geoBranch now tCallback geo
      | none => geoBranch now tCallback geo
    | none => geoBranch now tCallback geo

/-- Outcome of the `fetch` of `/api/nearby` as the client observes it:
`ok results` is a 2xx response whose parsed `results` array is `results`
(a missing/non-array field parses to `[]`); `httpError msg` is `!res.ok`
with `msg` the derived `json.message || json.error || json.status || "API " +
res.status` text; `netError` is a thrown network exception. -/
inductive FetchOutcome where
  | ok (results : List Place)
  | httpError (msg : String)
  | netError
deriving DecidableEq

/-- Observable effect of one `useLocation(lat, lng)` invocation, with the gate
state after the call has settled (the `finally` block has run on every
non-dropped, non-cache-hit path). -/
structure UseLocEffect where
  gate : GateState
  /-- the `fetch` to `/api/nearby` was issued -/
  upstreamCalled : Bool
  /-- key/value written by `setCachedResults`, if any -/
  cacheWrite : Option (String × RawEntry)
  /-- argument of `displayCards`, if reached -/
  rendered : Option (List Place)
  /-- argument of `renderEmpty`, if reached -/
  message : Option String
  /-- the gate guard at line 145 dropped the request (silent no-op) -/
  dropped : Bool
deriving DecidableEq

/-- The network part of `useLocation` (app.js lines 150–182), entered after
the gate admitted the request and `inFlight = true; lastRequestAt = now` ran:
whatever the fetch outcome, the `finally` block leaves `inFlight = false`, so
the settled gate is `{ inFlight := false, lastRequestAt := now }`.  On a 2xx
response with a non-empty `results` array the sorted list is cached (at clock
`tDone`, line 133) and rendered; an empty list renders the distinct
"no results" message without touching the cache; `!res.ok` and a thrown
exception render failure messages. -/
def fetchBranch (key : String) (now tDone : Nat) (fetch : FetchOutcome) : UseLocEffect :=
  match fetch with
  | .ok results =>
    if results.isEmpty then
      { gate := { inFlight := false, lastRequestAt := now }, upstreamCalled := true
        cacheWrite := none, rendered := none
        message := some "No places found nearby. Try another type or try again."
        dropped := false }
    else
      { gate := { inFlight := false, lastRequestAt := now }, upstreamCalled := true
        cacheWrite := some (key, setCachedResults tDone (sortByRating results))
        rendered := some (sortByRating results), message := none, dropped := false }
  | .httpError msg =>
    { gate := { inFlight := false, lastRequestAt := now }, upstreamCalled := true
      cacheWrite := none, rendered := none
      message := some ("Failed: " ++ msg), dropped := false }
  | .netError =>
    { gate := { inFlight := false, lastRequestAt := now }, upstreamCalled := true
      cacheWrite := none, rendered := none
      message := some "Failed to fetch places. Please try again.", dropped := false }

/-- `useLocation` (app.js lines 136–183): result-cache lookup first (a hit
renders immediately and touches nothing else), then the gate guard, then the
fetch; `now` is the clock at the guard/`lastRequestAt` assignment (lines
145–147).  `store` maps a storage key to its parsed value. -/
def useLocation (g : GateState) (store : String → Option RawEntry) (currentType : String)
    (lat lng : Int) (now tDone : Nat) (fetch : FetchOutcome) : UseLocEffect :=
  match getCachedResults (store (cacheKey lat lng currentType)) now with
  | some cached =>
    { gate := g, upstreamCalled := false, cacheWrite := none
      rendered := some cached, message := none, dropped := false }
  | none =>
    if gateBlocks g now then
      { gate := g, upstreamCalled := false, cacheWrite := none
        rendered := none, message := none, dropped := true }
    else
      fetchBranch (cacheKey lat lng currentType) now tDone fetch

/-- The in-flight / busy-UI state at event granularity, for the watchdog
lifecycle: `inFlight`/`lastRequestAt` are the gate globals, `btnDisabled` the
Find button's `disabled` property and `busyTimer` the pending
`window.__busyTimer` as an absolute fire deadline (`none` = cleared). -/
structure SysState where
  inFlight : Bool
  lastRequestAt : Nat
  btnDisabled : Bool
  busyTimer : Option Nat
deriving DecidableEq

/-- The gate-relevant projection of a `SysState`. -/
def SysState.gate (s : SysState) : GateState :=
  { inFlight := s.inFlight, lastRequestAt := s.lastRequestAt }

/-- Events on the in-flight state, from the source:
* `start now` — `useLocation` passes the gate and marks the request in flight:
  `inFlight = true; lastRequestAt = Date.now(); setBusy(true)` (lines
  146–148), where `setBusy(true)` disables the button and arms the watchdog
  `setTimeout(…, 8000)` after a `clearTimeout` (lines 189–197);
* `finishReq` — the `finally` block of any completed request, normal or
  error: `inFlight = false; setBusy(false)` (lines 179–182), `setBusy(false)`
  re-enabling the button and clearing the timer (lines 189, 198–200);
* `watchdogFire` — the armed timeout callback runs: re-enable the button and
  `inFlight = false` (lines 193–197). -/
inductive BusyEv where
  | start (now : Nat)
  | finishReq
  | watchdogFire
deriving DecidableEq

/-- One step of the in-flight/busy lifecycle. -/
def stepBusy (s : SysState) : BusyEv → SysState
  | .start now =>
    { inFlight := true, lastRequestAt := now, btnDisabled := true
      busyTimer := some (now + 8000) }
  | .finishReq =>
    { s with inFlight := false, btnDisabled := false, busyTimer := none }
  | .watchdogFire =>
    { s with inFlight := false, btnDisabled := false, busyTimer := none }

/-- A saved place as `savePlace` receives it (app.js line 245):
`{ name, place_id, photo, rating }`.  `rating` is the rendered badge value
(`place.rating ?? 'N/A'` — `none` stands for the `'N/A'` fallback). -/
structure SavedRec where
  name : String
  place_id : String
  photo : String
  rating : Option Int
deriving DecidableEq

/-- `savePlace` (app.js lines 306–316) as a transformation of the stored
per-category list: a linear scan (`saved.find(p => p.place_id ===
place.place_id)`) guards the append; on a hit the list is left unchanged
(only an "already saved" alert fires). -/
def savePlace (saved : List SavedRec) (place : SavedRec) : List SavedRec :=
  if (saved.find? (fun p => p.place_id == place.place_id)).isSome then saved
  else saved ++ [place]

/-- The swipe-left removal in `showSaved` (app.js lines 354–356):
`arr = arr.filter(p => p.place_id !== place.place_id)`. -/
def removeSaved (arr : List SavedRec) (pid : String) : List SavedRec :=
  arr.filter (fun p => p.place_id != pid)

/-! ## Unfolding lemmas -/

/-- A result-cache hit short-circuits `useLocation`: render, touch nothing. -/
theorem useLocation_hit_eq {g : GateState} {store : String → Option RawEntry}
    {currentType : String} {lat lng : Int} {now tDone : Nat} {fetch : FetchOutcome}
    {cached : List Place}
    (h : getCachedResults (store (cacheKey lat lng currentType)) now = some cached) :
    useLocation g store currentType lat lng now tDone fetch =
      { gate := g, upstreamCalled := false, cacheWrite := none
        rendered := some cached, message := none, dropped := false } := by
  unfold useLocation
  rw [h]

/-- On a result-cache miss with the gate blocking, `useLocation` is a silent
no-op. -/
theorem useLocation_blocked_eq {g : GateState} {store : String → Option RawEntry}
    {currentType : String} {lat lng : Int} {now tDone : Nat} {fetch : FetchOutcome}
    (hmiss : getCachedResults (store (cacheKey lat lng currentType)) now = none)
    (hblock : gateBlocks g now) :
    useLocation g store currentType lat lng now tDone fetch =
      { gate := g, upstreamCalled := false, cacheWrite := none
        rendered := none, message := none, dropped := true } := by
  unfold useLocation
  rw [hmiss, if_pos hblock]

/-- On a result-cache miss with the gate admitting, `useLocation` runs the
network branch. -/
theorem useLocation_pass_eq {g : GateState} {store : String → Option RawEntry}
    {currentType : String} {lat lng : Int} {now tDone : Nat} {fetch : FetchOutcome}
    (hmiss : getCachedResults (store (cacheKey lat lng currentType)) now = none)
    (hpass : ¬ gateBlocks g now) :
    useLocation g store currentType lat lng now tDone fetch =
      fetchBranch (cacheKey lat lng currentType) now tDone fetch := by
  unfold useLocation
  rw [hmiss, if_neg hpass]

/-- With the gate blocking, `getLocation` is a silent no-op. -/
theorem getLocation_blocked_eq {g : GateState} {stored : Option LocRaw}
    {now tCallback : Nat} {geo : GeoOutcome} (hblock : gateBlocks g now) :
    getLocation g stored now tCallback geo =
      { dropped := true, locWrite := none, proceedWith := none, invokedGeo := false
        message := none } := by
  unfold getLocation
  rw [if_pos hblock]

/-- With the gate admitting and a fresh cached location, `getLocation`
reuses the cached coordinates. -/
theorem getLocation_fresh_eq {g : GateState} {lat lng : Int} {t now tCallback : Nat}
    {geo : GeoOutcome} (hpass : ¬ gateBlocks g now)
    (hts : t ≠ 0 ∧ now - t < CACHE_MINUTES * 60 * 1000) :
    getLocation g (some { lat := lat, lng := lng, timestamp := some t }) now tCallback geo =
      { dropped := false, locWrite := none, proceedWith := some (lat, lng)
        invokedGeo := false, message := none } := by
  unfold getLocation
  rw [if_neg hpass]
  exact if_pos hts

/-- With the gate admitting and a cached location whose timestamp guard
fails, `getLocation` falls through to the geolocation branch. -/
theorem getLocation_stale_eq {g : GateState} {lat lng : Int} {t now tCallback : Nat}
    {geo : GeoOutcome} (hpass : ¬ gateBlocks g now)
    (hts : ¬ (t ≠ 0 ∧ now - t < CACHE_MINUTES * 60 * 1000)) :
    getLocation g (some { lat := lat, lng := lng, timestamp := some t }) now tCallback geo =
      geoBranch now tCallback geo := by
  unfold getLocation
  rw [if_neg hpass]
  exact if_neg hts

/-- With the gate admitting and no cached location, `getLocation` runs the
geolocation branch. -/
theorem getLocation_absent_eq {g : GateState} {now tCallback : Nat} {geo : GeoOutcome}
    (hpass : ¬ gateBlocks g now) :
    getLocation g none now tCallback geo = geoBranch now tCallback geo := by
  unfold getLocation
  rw [if_neg hpass]

/-- With the gate admitting and a cached location without a timestamp field,
`getLocation` runs the geolocation branch. -/
theorem getLocation_no_ts_eq {g : GateState} {lat lng : Int} {now tCallback : Nat}
    {geo : GeoOutcome} (hpass : ¬ gateBlocks g now) :
    getLocation g (some { lat := lat, lng := lng, timestamp := none }) now tCallback geo =
      geoBranch now tCallback geo := by
  unfold getLocation
  rw [if_neg hpass]

/-- The settled gate after the network branch is `{ inFlight := false,
lastRequestAt := now }`, whatever the fetch outcome (the `finally` block). -/
theorem fetchBranch_gate (key : String) (now tDone : Nat) (fetch : FetchOutcome) :
    (fetchBranch key now tDone fetch).gate = { inFlight := false, lastRequestAt := now } := by
  cases fetch with
  | ok results => by_cases h : results.isEmpty <;> simp [fetchBranch, h]
  | httpError msg => rfl
  | netError => rfl

/-- The network branch always issues the upstream fetch. -/
theorem fetchBranch_upstream (key : String) (now tDone : Nat) (fetch : FetchOutcome) :
    (fetchBranch key now tDone fetch).upstreamCalled = true := by
  cases fetch with
  | ok results => by_cases h : results.isEmpty <;> simp [fetchBranch, h]
  | httpError msg => rfl
  | netError => rfl

/-! ## Claims -/

/-- Claim C1: a cache entry written at time `T` is returned unchanged by a
lookup at time `T'` when `T' - T` is strictly below the TTL, and treated as
absent when `T' - T ≥` TTL — with TTL `RESULT_TTL` (5 minutes) for the result
cache written by `setCachedResults` and read by `getCachedResults`, and
`CACHE_MINUTES` (10 minutes) for the location cache read by `getLocation`,
which on a fresh entry hands the cached coordinates on without invoking the
Geolocation Provider and on an expired entry behaves exactly as if the entry
were absent.  (`0 < T`: the write clock is the epoch-millisecond time of an
actual write; the location lookup is taken with the request gate admitting,
the gate guard at line 93 sitting upstream of the cache check.) -/
theorem C1_ttl (T T' : Nat) (data : List Place) (lat lng : Int)
    (g : GateState) (tCb : Nat) (geo : GeoOutcome)
    (hT : 0 < T) (hle : T ≤ T') (hpass : ¬ gateBlocks g T') :
    (T' - T < RESULT_TTL →
      getCachedResults (some (setCachedResults T data)) T' = some data) ∧
    (RESULT_TTL ≤ T' - T →
      getCachedResults (some (setCachedResults T data)) T' = none) ∧
    (T' - T < CACHE_MINUTES * 60 * 1000 →
      getLocation g (some { lat := lat, lng := lng, timestamp := some T }) T' tCb geo =
        { dropped := false, locWrite := none, proceedWith := some (lat, lng)
          invokedGeo := false, message := none }) ∧
    (CACHE_MINUTES * 60 * 1000 ≤ T' - T →
      getLocation g (some { lat := lat, lng := lng, timestamp := some T }) T' tCb geo =
        getLocation g none T' tCb geo) := by
  refine ⟨fun h => ?_, fun h => ?_, fun h => ?_, fun h => ?_⟩
  · simp [getCachedResults, setCachedResults, hT.ne', h]
  · simp [getCachedResults, setCachedResults, Nat.not_lt.mpr h]
  · exact getLocation_fresh_eq hpass ⟨hT.ne', h⟩
  · rw [getLocation_stale_eq hpass (fun hc => absurd hc.2 (Nat.not_lt.mpr h)),
      getLocation_absent_eq hpass]

/-- Witness for C1 at `T = 10000`, `T' = 10500`, an idle gate and concrete
payloads. -/
theorem C1_ttl_witness :
    (0 < 10000 ∧ 10000 ≤ 10500 ∧ ¬ gateBlocks ⟨false, 0⟩ 10500) ∧
    (10500 - 10000 < RESULT_TTL →
      getCachedResults (some (setCachedResults 10000 [])) 10500 = some []) ∧
    (RESULT_TTL ≤ 10500 - 10000 →
      getCachedResults (some (setCachedResults 10000 [])) 10500 = none) ∧
    (10500 - 10000 < CACHE_MINUTES * 60 * 1000 →
      getLocation ⟨false, 0⟩ (some { lat := 1, lng := 2, timestamp := some 10000 }) 10500 0 .failure =
        { dropped := false, locWrite := none, proceedWith := some (1, 2)
          invokedGeo := false, message := none }) ∧
    (CACHE_MINUTES * 60 * 1000 ≤ 10500 - 10000 →
      getLocation ⟨false, 0⟩ (some { lat := 1, lng := 2, timestamp := some 10000 }) 10500 0 .failure =
        getLocation ⟨false, 0⟩ none 10500 0 .failure) :=
  ⟨⟨by decide, by decide, by decide⟩,
    C1_ttl 10000 10500 [] 1 2 ⟨false, 0⟩ 0 .failure (by decide) (by decide) (by decide)⟩

/-- Claim C2: two search requests issued less than 2.5 s apart, neither
satisfied by cache, make at most one upstream call — the first goes upstream
and the second is silently dropped: no fetch, no cache write, nothing
rendered and the gate left unchanged (a no-op, not a queue or retry).  In
general the gate drops a request whenever `inFlight` is set or the elapsed
time since `lastRequestAt` is below `REQUEST_GAP_MS`, in `useLocation` and in
`getLocation` alike. -/
theorem C2_request_gate (g : GateState) (store store2 : String → Option RawEntry)
    (type : String) (lat lng lat2 lng2 : Int) (t1 t2 tD1 tD2 : Nat)
    (f1 f2 : FetchOutcome)
    (hmiss1 : getCachedResults (store (cacheKey lat lng type)) t1 = none)
    (hpass1 : ¬ gateBlocks g t1)
    (hmiss2 : getCachedResults (store2 (cacheKey lat2 lng2 type)) t2 = none)
    (hclose : t2 - t1 < REQUEST_GAP_MS) :
    (useLocation g store type lat lng t1 tD1 f1).upstreamCalled = true ∧
    useLocation (useLocation g store type lat lng t1 tD1 f1).gate store2 type lat2 lng2 t2 tD2 f2 =
      { gate := (useLocation g store type lat lng t1 tD1 f1).gate
        upstreamCalled := false, cacheWrite := none
        rendered := none, message := none, dropped := true } ∧
    (∀ (g' : GateState) (store' : String → Option RawEntry) (lat' lng' : Int)
      (now tD : Nat) (f' : FetchOutcome),
      gateBlocks g' now →
      getCachedResults (store' (cacheKey lat' lng' type)) now = none →
      useLocation g' store' type lat' lng' now tD f' =
        { gate := g', upstreamCalled := false, cacheWrite := none
          rendered := none, message := none, dropped := true }) ∧
    (∀ (g' : GateState) (stored : Option LocRaw) (now tCb : Nat) (geo : GeoOutcome),
      gateBlocks g' now →
      getLocation g' stored now tCb geo =
        { dropped := true, locWrite := none, proceedWith := none, invokedGeo := false
          message := none }) := by
  have h1 : useLocation g store type lat lng t1 tD1 f1 =
      fetchBranch (cacheKey lat lng type) t1 tD1 f1 :=
    useLocation_pass_eq hmiss1 hpass1
  have hg1 : (useLocation g store type lat lng t1 tD1 f1).gate =
      { inFlight := false, lastRequestAt := t1 } := by
    rw [h1, fetchBranch_gate]
  refine ⟨?_, ?_, ?_, ?_⟩
  · rw [h1]; exact fetchBranch_upstream _ _ _ _
  · rw [hg1]
    exact useLocation_blocked_eq hmiss2 (Or.inr hclose)
  · intro g' store' lat' lng' now tD f' hb hm
    exact useLocation_blocked_eq hm hb
  · intro g' stored now tCb geo hb
    exact getLocation_blocked_eq hb

/-- Witness for C2: two searches 1.5 s apart on an empty store. -/
theorem C2_request_gate_witness :
    (getCachedResults ((fun _ => none : String → Option RawEntry)
        (cacheKey 40000400 (-73999600) "cafe")) 2500 = none ∧
      ¬ gateBlocks ⟨false, 0⟩ 2500 ∧
      getCachedResults ((fun _ => none : String → Option RawEntry)
        (cacheKey 40000400 (-73999600) "cafe")) 4000 = none ∧
      4000 - 2500 < REQUEST_GAP_MS) ∧
    (useLocation ⟨false, 0⟩ (fun _ => none) "cafe" 40000400 (-73999600) 2500 2600
        .netError).upstreamCalled = true ∧
    useLocation (useLocation ⟨false, 0⟩ (fun _ => none) "cafe" 40000400 (-73999600) 2500 2600
        .netError).gate (fun _ => none) "cafe" 40000400 (-73999600) 4000 4100 .netError =
      { gate := (useLocation ⟨false, 0⟩ (fun _ => none) "cafe" 40000400 (-73999600) 2500 2600
          .netError).gate
        upstreamCalled := false, cacheWrite := none
        rendered := none, message := none, dropped := true } :=
  ⟨⟨by decide, by decide, by decide, by decide⟩,
    (C2_request_gate ⟨false, 0⟩ (fun _ => none) (fun _ => none) "cafe"
      40000400 (-73999600) 40000400 (-73999600) 2500 4000 2600 4100 .netError .netError
      (by decide) (by decide) (by decide) (by decide)).1,
    (C2_request_gate ⟨false, 0⟩ (fun _ => none) (fun _ => none) "cafe"
      40000400 (-73999600) 40000400 (-73999600) 2500 4000 2600 4100 .netError .netError
      (by decide) (by decide) (by decide) (by decide)).2.1⟩

/-- Claim C3: a request whose result-cache key holds an entry younger than
5 minutes is served the cached data immediately, for *every* gate state —
including `inFlight = true` or a `lastRequestAt` under 2.5 s old — and the
hit leaves the gate untouched (neither `inFlight` nor `lastRequestAt` is
updated), issues no upstream call and writes nothing: a cache hit never
counts as a request. -/
theorem C3_cache_hit_bypasses_gate (g : GateState) (store : String → Option RawEntry)
    (type : String) (lat lng : Int) (T now tDone : Nat) (fetch : FetchOutcome)
    (cached : List Place)
    (hstore : store (cacheKey lat lng type) = some { ts := some T, data := cached })
    (hT : 0 < T) (hfresh : now - T < RESULT_TTL) :
    useLocation g store type lat lng now tDone fetch =
      { gate := g, upstreamCalled := false, cacheWrite := none
        rendered := some cached, message := none, dropped := false } :=
  useLocation_hit_eq (by rw [hstore]; simp [getCachedResults, hT.ne', hfresh])

/-- Witness for C3: a fresh entry is served through a gate that is both
in flight and within the 2.5 s gap, and the gate state survives unchanged. -/
theorem C3_cache_hit_bypasses_gate_witness :
    ((fun _ => some { ts := some 1000, data := [] } : String → Option RawEntry)
        (cacheKey 40000400 (-73999600) "cafe") = some { ts := some 1000, data := [] } ∧
      0 < 1000 ∧ 1500 - 1000 < RESULT_TTL ∧
      gateBlocks ⟨true, 1000⟩ 1500) ∧
    useLocation ⟨true, 1000⟩ (fun _ => some { ts := some 1000, data := [] })
        "cafe" 40000400 (-73999600) 1500 1600 .netError =
      { gate := ⟨true, 1000⟩, upstreamCalled := false, cacheWrite := none
        rendered := some [], message := none, dropped := false } :=
  ⟨⟨by decide, by decide, by decide, by decide⟩,
    C3_cache_hit_bypasses_gate ⟨true, 1000⟩ (fun _ => some { ts := some 1000, data := [] })
      "cafe" 40000400 (-73999600) 1000 1500 1600 .netError []
      (by decide) (by decide) (by decide)⟩

/-- Counterexample to claim C4 as stated: at `lat = 40.0004`,
`lng = -73.9996`, `type = "cafe"` the key the code derives is
`nearby:cafe:40.000,-74.000` — the claimed formula
`type + ":" + round3(lat) + "," + round3(lng)` with truncating `round3`
yields `cafe:40.000,-73.999`: the code prepends a `nearby:` namespace and
`toFixed(3)` rounds to nearest rather than truncating. -/
theorem C4_counterexample :
    cacheKey 40000400 (-73999600) "cafe" = "nearby:cafe:40.000,-74.000" ∧
    claimKey "cafe" 40000400 (-73999600) = "cafe:40.000,-73.999" ∧
    cacheKey 40000400 (-73999600) "cafe" ≠ claimKey "cafe" 40000400 (-73999600) := by
  refine ⟨by decide, by decide, by decide⟩

/-- Claim C4 (amended): the result-cache key derivation is the deterministic
pure function `key(lat, lng, type) = "nearby:" + type + ":" + round3(lat) +
"," + round3(lng)`, where `round3` renders the coordinate rounded to the
nearest 3-decimal value (ties away from zero, the `toFixed(3)` behaviour)
rather than truncated; consequently, for all coordinate pairs whose 3-decimal
renderings agree, the keys agree for every type. -/
theorem C4_key_derivation (lat lng lat' lng' : Int) (type : String)
    (hlat : toFixed3 lat = toFixed3 lat') (hlng : toFixed3 lng = toFixed3 lng') :
    cacheKey lat lng type =
      "nearby:" ++ type ++ ":" ++ toFixed3 lat ++ "," ++ toFixed3 lng ∧
    cacheKey lat lng type = cacheKey lat' lng' type := by
  refine ⟨rfl, ?_⟩
  unfold cacheKey
  rw [hlat, hlng]

/-- Witness for C4 on the spec's own scenario: `(40.0001, -73.9999)` and
`(40.0004, -73.9996)` land in the same 3-decimal bucket and produce the same
key. -/
theorem C4_key_derivation_witness :
    (toFixed3 40000100 = toFixed3 40000400 ∧ toFixed3 (-73999900) = toFixed3 (-73999600)) ∧
    cacheKey 40000100 (-73999900) "cafe" =
      "nearby:" ++ "cafe" ++ ":" ++ toFixed3 40000100 ++ "," ++ toFixed3 (-73999900) ∧
    cacheKey 40000100 (-73999900) "cafe" = cacheKey 40000400 (-73999600) "cafe" :=
  ⟨⟨by decide, by decide⟩,
    C4_key_derivation 40000100 (-73999900) 40000400 (-73999600) "cafe"
      (by decide) (by decide)⟩

/-- `4.5` stars, in tenths. -/
def placeHigh : Place :=
  { place_id := "p1", name := "High", rating := some 45, vicinity := "", photo := none }

/-- `null` rating. -/
def placeNull : Place :=
  { place_id := "p2", name := "NoRating", rating := none, vicinity := "", photo := none }

/-- `3.0` stars, in tenths. -/
def placeMid : Place :=
  { place_id := "p3", name := "Mid", rating := some 30, vicinity := "", photo := none }

/-- Claim C5: for every non-empty upstream result list, the data stored in
the result-cache entry and rendered is the list sorted descending by rating
with a missing rating treated as `0`; in particular the input ratings
`[4.5, null, 3.0]` come out `[4.5, 3.0, null]`. -/
theorem C5_sorted_descending (g : GateState) (store : String → Option RawEntry)
    (type : String) (lat lng : Int) (now tDone : Nat) (results : List Place)
    (hmiss : getCachedResults (store (cacheKey lat lng type)) now = none)
    (hpass : ¬ gateBlocks g now) (hne : results ≠ []) :
    (useLocation g store type lat lng now tDone (.ok results)).cacheWrite =
      some (cacheKey lat lng type, setCachedResults tDone (sortByRating results)) ∧
    (useLocation g store type lat lng now tDone (.ok results)).rendered =
      some (sortByRating results) ∧
    List.Sorted ratingGE (sortByRating results) ∧
    sortByRating [placeHigh, placeNull, placeMid] = [placeHigh, placeMid, placeNull] := by
  have hraw : useLocation g store type lat lng now tDone (.ok results) =
      fetchBranch (cacheKey lat lng type) now tDone (.ok results) :=
    useLocation_pass_eq hmiss hpass
  have hemp : results.isEmpty = false := by
    cases results with
    | nil => exact absurd rfl hne
    | cons a l => rfl
  refine ⟨?_, ?_, List.sorted_insertionSort ratingGE results, by decide⟩
  · rw [hraw]; simp [fetchBranch, hemp]
  · rw [hraw]; simp [fetchBranch, hemp]

/-- Witness for C5 on the spec's rating example, through a passing gate and
an empty store. -/
theorem C5_sorted_descending_witness :
    (getCachedResults ((fun _ => none : String → Option RawEntry)
        (cacheKey 40000400 (-73999600) "cafe")) 2500 = none ∧
      ¬ gateBlocks ⟨false, 0⟩ 2500 ∧
      [placeHigh, placeNull, placeMid] ≠ ([] : List Place)) ∧
    (useLocation ⟨false, 0⟩ (fun _ => none) "cafe" 40000400 (-73999600) 2500 2600
        (.ok [placeHigh, placeNull, placeMid])).cacheWrite =
      some (cacheKey 40000400 (-73999600) "cafe",
        setCachedResults 2600 (sortByRating [placeHigh, placeNull, placeMid])) ∧
    sortByRating [placeHigh, placeNull, placeMid] = [placeHigh, placeMid, placeNull] :=
  ⟨⟨by decide, by decide, by decide⟩,
    (C5_sorted_descending ⟨false, 0⟩ (fun _ => none) "cafe" 40000400 (-73999600) 2500 2600
      [placeHigh, placeNull, placeMid] (by decide) (by decide) (by decide)).1,
    (C5_sorted_descending ⟨false, 0⟩ (fun _ => none) "cafe" 40000400 (-73999600) 2500 2600
      [placeHigh, placeNull, placeMid] (by decide) (by decide) (by decide)).2.2.2⟩

/-- Counterexample to claim C6 as stated: `getLocation` captures `now` at
line 96, *before* invoking the Geolocation Provider; with the request
initiated at clock `2500` and the position delivered to the success callback
at clock `9000`, the entry written carries timestamp `2500` — the request
time — not the read time `9000`. -/
theorem C6_counterexample :
    (getLocation ⟨false, 0⟩ none 2500 9000 (.success 40000400 (-73999600))).locWrite =
      some { lat := 40000400, lng := -73999600, timestamp := some 2500 } ∧
    (getLocation ⟨false, 0⟩ none 2500 9000 (.success 40000400 (-73999600))).locWrite ≠
      some { lat := 40000400, lng := -73999600, timestamp := some 9000 } := by
  refine ⟨by decide, by decide⟩

/-- Claim C6 (amended): for every successful geolocation read, the location
cache entry written carries the clock value `getLocation` sampled when it
started handling the request — before invoking the Geolocation Provider —
whatever the time `tCb` at which the success callback later delivers the
coordinates (the callback never reads the clock). -/
theorem C6_timestamp_is_request_time (g : GateState) (now tCb : Nat) (lat lng : Int)
    (hpass : ¬ gateBlocks g now) :
    (getLocation g none now tCb (.success lat lng)).locWrite =
      some { lat := lat, lng := lng, timestamp := some now } := by
  rw [getLocation_absent_eq hpass]
  rfl

/-- Witness for C6 (amended) at request time `2500`, delivery time `9000`. -/
theorem C6_timestamp_is_request_time_witness :
    (¬ gateBlocks ⟨false, 0⟩ 2500) ∧
    (getLocation ⟨false, 0⟩ none 2500 9000 (.success 40000400 (-73999600))).locWrite =
      some { lat := 40000400, lng := -73999600, timestamp := some 2500 } :=
  ⟨by decide,
    C6_timestamp_is_request_time ⟨false, 0⟩ 2500 9000 40000400 (-73999600) (by decide)⟩

/-- Counterexample to claim C7 as stated: a successful (2xx) search whose
`results` array is empty renders the distinct "no results" message but
performs *no* cache write — `setCachedResults` is only reached on a
non-empty list, so the empty success does not overwrite the entry. -/
theorem C7_counterexample :
    (useLocation ⟨false, 0⟩ (fun _ => none) "cafe" 40000400 (-73999600) 2500 2600
        (.ok [])).upstreamCalled = true ∧
    (useLocation ⟨false, 0⟩ (fun _ => none) "cafe" 40000400 (-73999600) 2500 2600
        (.ok [])).message =
      some "No places found nearby. Try another type or try again." ∧
    (useLocation ⟨false, 0⟩ (fun _ => none) "cafe" 40000400 (-73999600) 2500 2600
        (.ok [])).cacheWrite = none := by
  refine ⟨by decide, by decide, by decide⟩

/-- Claim C7 (amended): every successful search whose result list is
non-empty overwrites the result-cache entry for its key; a successful search
with an empty result list renders the distinct "no results" message (not an
error) but writes nothing to the cache; every successful geolocation read
overwrites the location cache entry. -/
theorem C7_cache_overwrite (g g' : GateState) (store : String → Option RawEntry)
    (type : String) (lat lng lat' lng' : Int) (now tDone now' tCb : Nat)
    (results : List Place)
    (hmiss : getCachedResults (store (cacheKey lat lng type)) now = none)
    (hpass : ¬ gateBlocks g now) (hpass' : ¬ gateBlocks g' now') :
    (results ≠ [] →
      (useLocation g store type lat lng now tDone (.ok results)).cacheWrite =
        some (cacheKey lat lng type, setCachedResults tDone (sortByRating results))) ∧
    ((useLocation g store type lat lng now tDone (.ok [])).cacheWrite = none ∧
      (useLocation g store type lat lng now tDone (.ok [])).message =
        some "No places found nearby. Try another type or try again.") ∧
    (getLocation g' none now' tCb (.success lat' lng')).locWrite =
      some { lat := lat', lng := lng', timestamp := some now' } := by
  have hempty : useLocation g store type lat lng now tDone (.ok []) =
      fetchBranch (cacheKey lat lng type) now tDone (.ok []) :=
    useLocation_pass_eq hmiss hpass
  refine ⟨fun hne => ?_, ⟨?_, ?_⟩, ?_⟩
  · have hraw : useLocation g store type lat lng now tDone (.ok results) =
        fetchBranch (cacheKey lat lng type) now tDone (.ok results) :=
      useLocation_pass_eq hmiss hpass
    have hemp : results.isEmpty = false := by
      cases results with
      | nil => exact absurd rfl hne
      | cons a l => rfl
    rw [hraw]; simp [fetchBranch, hemp]
  · rw [hempty]; rfl
  · rw [hempty]; rfl
  · rw [getLocation_absent_eq hpass']; rfl

/-- Witness for C7 (amended): a one-element success caches, the empty success
does not, and the geolocation success writes the location entry. -/
theorem C7_cache_overwrite_witness :
    (getCachedResults ((fun _ => none : String → Option RawEntry)
        (cacheKey 40000400 (-73999600) "cafe")) 2500 = none ∧
      ¬ gateBlocks ⟨false, 0⟩ 2500 ∧ [placeHigh] ≠ ([] : List Place)) ∧
    (useLocation ⟨false, 0⟩ (fun _ => none) "cafe" 40000400 (-73999600) 2500 2600
        (.ok [placeHigh])).cacheWrite =
      some (cacheKey 40000400 (-73999600) "cafe",
        setCachedResults 2600 (sortByRating [placeHigh])) ∧
    (useLocation ⟨false, 0⟩ (fun _ => none) "cafe" 40000400 (-73999600) 2500 2600
        (.ok [])).cacheWrite = none ∧
    (getLocation ⟨false, 0⟩ none 2500 9000 (.success 1 2)).locWrite =
      some { lat := 1, lng := 2, timestamp := some 2500 } :=
  ⟨⟨by decide, by decide, by decide⟩,
    (C7_cache_overwrite ⟨false, 0⟩ ⟨false, 0⟩ (fun _ => none) "cafe"
      40000400 (-73999600) 1 2 2500 2600 2500 9000 [placeHigh]
      (by decide) (by decide) (by decide)).1 (by decide),
    ((C7_cache_overwrite ⟨false, 0⟩ ⟨false, 0⟩ (fun _ => none) "cafe"
      40000400 (-73999600) 1 2 2500 2600 2500 9000 [placeHigh]
      (by decide) (by decide) (by decide)).2.1).1,
    (C7_cache_overwrite ⟨false, 0⟩ ⟨false, 0⟩ (fun _ => none) "cafe"
      40000400 (-73999600) 1 2 2500 2600 2500 9000 [placeHigh]
      (by decide) (by decide) (by decide)).2.2⟩

/-- Claim C8: marking a request in flight arms the 8-second watchdog
(`busyTimer` set to fire 8000 ms after the start) and disables the UI; if the
request does not complete, the watchdog's expiry forcibly clears `inFlight`
and re-enables the button, after which a request whose 2.5-second gap has
elapsed is no longer blocked by the gate; and `inFlight` is reset on every
path — normal completion and error both run the same `finally`
(`finishReq`), and watchdog expiry clears it too. -/
theorem C8_watchdog (s : SysState) (t t' : Nat)
    (hgap : REQUEST_GAP_MS ≤ t' - t) :
    stepBusy s (.start t) =
      { inFlight := true, lastRequestAt := t, btnDisabled := true
        busyTimer := some (t + 8000) } ∧
    (stepBusy (stepBusy s (.start t)) .watchdogFire).inFlight = false ∧
    (stepBusy (stepBusy s (.start t)) .watchdogFire).btnDisabled = false ∧
    (stepBusy s .finishReq).inFlight = false ∧
    (stepBusy s .finishReq).btnDisabled = false ∧
    ¬ gateBlocks (stepBusy (stepBusy s (.start t)) .watchdogFire).gate t' := by
  refine ⟨rfl, rfl, rfl, rfl, rfl, ?_⟩
  rintro (hfl | hlt)
  · exact Bool.false_ne_true hfl
  · exact absurd hlt (Nat.not_lt.mpr hgap)

/-- Witness for C8: a request started at `1000` is force-cleared by the
watchdog; a follow-up at `9000` (8 s later, beyond the 2.5 s gap) passes the
gate. -/
theorem C8_watchdog_witness :
    (REQUEST_GAP_MS ≤ 9000 - 1000) ∧
    stepBusy ⟨false, 0, false, none⟩ (.start 1000) =
      { inFlight := true, lastRequestAt := 1000, btnDisabled := true
        busyTimer := some (1000 + 8000) } ∧
    (stepBusy (stepBusy ⟨false, 0, false, none⟩ (.start 1000)) .watchdogFire).inFlight = false ∧
    ¬ gateBlocks (stepBusy (stepBusy ⟨false, 0, false, none⟩ (.start 1000)) .watchdogFire).gate 9000 :=
  ⟨by decide,
    (C8_watchdog ⟨false, 0, false, none⟩ 1000 9000 (by decide)).1,
    (C8_watchdog ⟨false, 0, false, none⟩ 1000 9000 (by decide)).2.1,
    (C8_watchdog ⟨false, 0, false, none⟩ 1000 9000 (by decide)).2.2.2.2.2⟩

/-- Claim C9: in a per-category saved list, saving a place whose id already
occurs (found by the linear scan) leaves the list unchanged, so from a list
with pairwise-distinct ids, saving preserves distinctness — no two entries in
a category ever share an id; removing filters out exactly the entries with
the given id, which for a non-present id is a no-op. -/
theorem C9_saved_registry (saved arr : List SavedRec) (place : SavedRec) (pid : String) :
    ((∃ q ∈ saved, q.place_id = place.place_id) → savePlace saved place = saved) ∧
    ((saved.map SavedRec.place_id).Nodup →
      ((savePlace saved place).map SavedRec.place_id).Nodup) ∧
    ((∀ q ∈ arr, q.place_id ≠ pid) → removeSaved arr pid = arr) ∧
    (∀ q ∈ removeSaved arr pid, q.place_id ≠ pid) := by
  refine ⟨?_, ?_, ?_, ?_⟩
  · rintro ⟨q, hq, he⟩
    have hsome : (saved.find? (fun p => p.place_id == place.place_id)).isSome := by
      rw [List.find?_isSome]
      exact ⟨q, hq, by simp [he]⟩
    simp [savePlace, hsome]
  · intro hnd
    by_cases hf : (saved.find? (fun p => p.place_id == place.place_id)).isSome
    · simpa [savePlace, hf] using hnd
    · have hall := List.find?_eq_none.mp (Option.not_isSome_iff_eq_none.mp hf)
      have hnotin : place.place_id ∉ saved.map SavedRec.place_id := by
        rw [List.mem_map]
        rintro ⟨q, hq, he⟩
        exact hall q hq (by simp [he])
      have hmap : (savePlace saved place).map SavedRec.place_id =
          saved.map SavedRec.place_id ++ [place.place_id] := by
        simp [savePlace, hf]
      rw [hmap]
      refine List.Nodup.append hnd (List.nodup_singleton _) ?_
      intro x hx hmem
      rw [List.mem_singleton] at hmem
      subst hmem
      exact hnotin hx
  · intro h
    apply List.filter_eq_self.mpr
    intro a ha
    simpa [bne_iff_ne] using h a ha
  · intro q hq
    simpa [bne_iff_ne] using List.of_mem_filter hq

/-- Witness for C9: re-saving a saved id is a no-op and keeps ids distinct;
removing an absent id is a no-op; removal leaves no entry with the removed
id. -/
theorem C9_saved_registry_witness :
    ((∃ q ∈ [⟨"A", "id1", "u", some 45⟩], SavedRec.place_id q =
        SavedRec.place_id (⟨"A", "id1", "u", some 45⟩ : SavedRec)) ∧
      (([⟨"A", "id1", "u", some 45⟩] : List SavedRec).map SavedRec.place_id).Nodup ∧
      (∀ q ∈ ([⟨"A", "id1", "u", some 45⟩] : List SavedRec), SavedRec.place_id q ≠ "id2")) ∧
    savePlace [⟨"A", "id1", "u", some 45⟩] ⟨"A", "id1", "u", some 45⟩ =
      [⟨"A", "id1", "u", some 45⟩] ∧
    ((savePlace [⟨"A", "id1", "u", some 45⟩]
        ⟨"A", "id1", "u", some 45⟩).map SavedRec.place_id).Nodup ∧
    removeSaved [⟨"A", "id1", "u", some 45⟩] "id2" = [⟨"A", "id1", "u", some 45⟩] ∧
    (∀ q ∈ removeSaved [⟨"A", "id1", "u", some 45⟩] "id2", SavedRec.place_id q ≠ "id2") :=
  ⟨⟨⟨⟨"A", "id1", "u", some 45⟩, by decide, rfl⟩, by decide, by decide⟩,
    (C9_saved_registry [⟨"A", "id1", "u", some 45⟩] [⟨"A", "id1", "u", some 45⟩]
      ⟨"A", "id1", "u", some 45⟩ "id2").1 ⟨⟨"A", "id1", "u", some 45⟩, by decide, rfl⟩,
    (C9_saved_registry [⟨"A", "id1", "u", some 45⟩] [⟨"A", "id1", "u", some 45⟩]
      ⟨"A", "id1", "u", some 45⟩ "id2").2.1 (by decide),
    (C9_saved_registry [⟨"A", "id1", "u", some 45⟩] [⟨"A", "id1", "u", some 45⟩]
      ⟨"A", "id1", "u", some 45⟩ "id2").2.2.1 (by decide),
    (C9_saved_registry [⟨"A", "id1", "u", some 45⟩] [⟨"A", "id1", "u", some 45⟩]
      ⟨"A", "id1", "u", some 45⟩ "id2").2.2.2⟩

/-- Claim C10 (implicit): a stored cache entry whose timestamp field is
absent or `0` is treated as absent regardless of its age or data:
`getCachedResults` returns `null` when `ts` is falsy, and `getLocation`
ignores a cached location with a falsy `timestamp`, behaving exactly as with
no entry at all — a lookup never returns data from such an entry. -/
theorem C10_falsy_timestamp (data : List Place) (now tCb : Nat) (g : GateState)
    (lat lng : Int) (geo : GeoOutcome) (hpass : ¬ gateBlocks g now) :
    getCachedResults (some { ts := some 0, data := data }) now = none ∧
    getCachedResults (some { ts := none, data := data }) now = none ∧
    getCachedResults none now = none ∧
    getLocation g (some { lat := lat, lng := lng, timestamp := some 0 }) now tCb geo =
      getLocation g none now tCb geo ∧
    getLocation g (some { lat := lat, lng := lng, timestamp := none }) now tCb geo =
      getLocation g none now tCb geo := by
  refine ⟨by simp [getCachedResults], rfl, rfl, ?_, ?_⟩
  · rw [getLocation_stale_eq hpass (fun hc => hc.1 rfl), getLocation_absent_eq hpass]
  · rw [getLocation_no_ts_eq hpass, getLocation_absent_eq hpass]

/-- Witness for C10 with a zero-timestamp entry that would otherwise be
fresh, through a passing gate. -/
theorem C10_falsy_timestamp_witness :
    (¬ gateBlocks ⟨false, 0⟩ 2500) ∧
    getCachedResults (some { ts := some 0, data := [placeHigh] }) 2500 = none ∧
    getLocation ⟨false, 0⟩ (some { lat := 1, lng := 2, timestamp := some 0 }) 2500 0 .failure =
      getLocation ⟨false, 0⟩ none 2500 0 .failure :=
  ⟨by decide,
    (C10_falsy_timestamp [placeHigh] 2500 0 ⟨false, 0⟩ 1 2 .failure (by decide)).1,
    (C10_falsy_timestamp [placeHigh] 2500 0 ⟨false, 0⟩ 1 2 .failure (by decide)).2.2.2.1⟩

end CafeCurator
